import Mathlib

/-
Verification of the resumable IMDb-rating enrichment pipeline
(src/scripts/imdb_rating_script.py, src/scripts/cleanup_script.py,
src/scripts/merge_script.py) against its natural-language specification.

The Python code is shallowly embedded: the remote lookup client is an
opaque function from the invocation number (per fetch) to an outcome,
exceptions become an explicit error type, pandas data frames become lists
of records, and thread-pool completion order becomes an explicit order
parameter.  Each definition carries a comment pointing at the source
lines it translates.
-/

set_option autoImplicit false

/--
Outcome of one `ia.search_movie(title)` / `ia.update(movie)` attempt, as
observed by `get_imdb_rating` (both script variants, lines 26-33 of each):
either the search returns a list of movies (each movie's `.get('rating')`
being an optional value), or the attempt raises.  `timeout` is
`requests.exceptions.Timeout`, `requestError` is any other
`requests.exceptions.RequestException`, and `otherError` is any exception
that is neither of those (e.g. `imdb.IMDbDataAccessError` or a generic
`Exception`).  `BaseException`s that are not `Exception`s (such as
`KeyboardInterrupt`) are outside the model.
-/
inductive Attempt (V : Type) where
  | results (found : List (Option V))
  | timeout
  | requestError
  | otherError
deriving DecidableEq

/-- Python-level errors that the embedded code can raise to its caller. -/
inductive PyError where
  /-- the `except HTTPError` clause of imdb_rating_script.py line 40
  evaluates the name `HTTPError`, which is never imported, so Python
  raises `NameError` while matching the exception handler. -/
  | nameErrorHTTPError
  /-- `ratings[i] = x` with `i` out of range (cleanup_script.py line 135). -/
  | indexError
  /-- `max()` of an empty Index column is NaN; slicing with `NaN + 1`
  raises (imdb_rating_script.py lines 109-110). -/
  | valueError
deriving DecidableEq

/-- `retries = 3` in `get_imdb_rating` (line 23 of both scripts). -/
def MAX_RETRIES : Nat := 3

/-- `delay = 5` seconds in `get_imdb_rating` (line 24 of both scripts). -/
def RETRY_DELAY : Nat := 5

/--
Retry loop of `get_imdb_rating` in cleanup_script.py (lines 25-43).
`client k` is the outcome of the k-th lookup invocation for this title;
the result triple is (returned rating, number of lookup invocations,
total seconds slept in `time.sleep(delay)` calls).  Every exception is
caught (`except Timeout`, `except RequestException`, `except Exception`),
the handler sleeps `delay` and the loop retries; an empty search result
returns `None` at once; after the loop, `None` is returned.
-/
def fetchLoopC (V : Type) (client : Nat → Attempt V) (k : Nat) : Nat → Option V × Nat × Nat
  | 0 => (none, 0, 0)
  | n + 1 =>
    match client k with
    | .results [] => (none, 1, 0)
    | .results (r :: _) => (r, 1, 0)
    | .timeout =>
      let t := fetchLoopC V client (k + 1) n
      (t.1, t.2.1 + 1, t.2.2 + RETRY_DELAY)
    | .requestError =>
      let t := fetchLoopC V client (k + 1) n
      (t.1, t.2.1 + 1, t.2.2 + RETRY_DELAY)
    | .otherError =>
      let t := fetchLoopC V client (k + 1) n
      (t.1, t.2.1 + 1, t.2.2 + RETRY_DELAY)

/-- `get_imdb_rating` of cleanup_script.py (lines 13-43). -/
def get_imdb_rating_C (V : Type) (client : Nat → Attempt V) : Option V × Nat × Nat :=
  fetchLoopC V client 0 MAX_RETRIES

/--
Retry loop of `get_imdb_rating` in imdb_rating_script.py (lines 25-49).
Identical to the cleanup variant except for the handler chain: after
`except Timeout` and `except RequestException`, the next clause is
`except HTTPError` -- but `HTTPError` is never imported, so for any other
exception Python raises `NameError` while matching handlers, and that
`NameError` propagates to the caller (the `except imdb.IMDbDataAccessError`
and `except Exception` clauses are unreachable).
-/
def fetchLoopV1 (V : Type) (client : Nat → Attempt V) (k : Nat) :
    Nat → Except PyError (Option V) × Nat × Nat
  | 0 => (.ok none, 0, 0)
  | n + 1 =>
    match client k with
    | .results [] => (.ok none, 1, 0)
    | .results (r :: _) => (.ok r, 1, 0)
    | .timeout =>
      let t := fetchLoopV1 V client (k + 1) n
      (t.1, t.2.1 + 1, t.2.2 + RETRY_DELAY)
    | .requestError =>
      let t := fetchLoopV1 V client (k + 1) n
      (t.1, t.2.1 + 1, t.2.2 + RETRY_DELAY)
    | .otherError => (.error .nameErrorHTTPError, 1, 0)

/-- `get_imdb_rating` of imdb_rating_script.py (lines 13-49). -/
def get_imdb_rating_V1 (V : Type) (client : Nat → Attempt V) :
    Except PyError (Option V) × Nat × Nat :=
  fetchLoopV1 V client 0 MAX_RETRIES

/-- Unfolding lemma: a non-empty search result on invocation `k` ends the
loop at once with the first movie's rating and one invocation. -/
theorem fetchLoopC_found (V : Type) (client : Nat → Attempt V) (k n : Nat)
    (r : Option V) (rest : List (Option V)) (h : client k = .results (r :: rest)) :
    fetchLoopC V client k (n + 1) = (r, 1, 0) := by
  simp [fetchLoopC, h]

/-- Unfolding lemma, imdb_rating_script.py variant. -/
theorem fetchLoopV1_found (V : Type) (client : Nat → Attempt V) (k n : Nat)
    (r : Option V) (rest : List (Option V)) (h : client k = .results (r :: rest)) :
    fetchLoopV1 V client k (n + 1) = (.ok r, 1, 0) := by
  simp [fetchLoopV1, h]

/--
C1: evaluation of the two `get_imdb_rating` variants on the relevant
inputs.  A lookup that raises `Timeout` on every attempt is invoked
`MAX_RETRIES = 3` times, sleeps 15 seconds and yields absence in both
variants; in cleanup_script.py the same holds for any other exception;
but in imdb_rating_script.py a lookup that raises a transient exception
other than `Timeout`/`RequestException` (e.g. `imdb.IMDbDataAccessError`)
on every attempt is invoked exactly once and the fetch raises `NameError`
instead of returning absence, because line 40 references the unimported
name `HTTPError`.
-/
theorem c1_retry_bound_run :
    get_imdb_rating_V1 Nat (fun _ => Attempt.timeout) = (.ok none, 3, 15)
      ∧ get_imdb_rating_C Nat (fun _ => Attempt.otherError) = (none, 3, 15)
      ∧ get_imdb_rating_C Nat (fun _ => Attempt.results []) = (none, 1, 0)
      ∧ get_imdb_rating_V1 Nat (fun _ => Attempt.results []) = (.ok none, 1, 0)
      ∧ get_imdb_rating_V1 Nat (fun _ => Attempt.otherError)
          = (.error .nameErrorHTTPError, 1, 0) := by
  refine ⟨rfl, rfl, rfl, rfl, rfl⟩

/--
C2: the fetch operation of imdb_rating_script.py can raise to its caller.
With a lookup that times out once and then raises a generic exception,
`get_imdb_rating` propagates `NameError` (undefined `HTTPError` in the
handler chain of line 40) after the second invocation, instead of
containing the error and returning absence.
-/
theorem c2_error_containment_run :
    get_imdb_rating_V1 Nat
        (fun k => if k == 0 then Attempt.timeout else Attempt.otherError)
      = (.error .nameErrorHTTPError, 2, 5) := by
  rfl

/--
C9: for a lookup whose first invocation succeeds with a non-empty search
result, both variants return the first movie's (optional) rating after
exactly one invocation and no retry delay, independent of the remaining
search results and of any later invocation behaviour; in particular a
first movie with no `rating` field yields absence after one invocation.
-/
theorem c9_unrated_first_result (V : Type) (client : Nat → Attempt V)
    (r : Option V) (rest : List (Option V))
    (h : client 0 = .results (r :: rest)) :
    get_imdb_rating_C V client = (r, 1, 0)
      ∧ get_imdb_rating_V1 V client = (.ok r, 1, 0) := by
  constructor
  · show fetchLoopC V client 0 (2 + 1) = (r, 1, 0)
    exact fetchLoopC_found V client 0 2 r rest h
  · show fetchLoopV1 V client 0 (2 + 1) = (.ok r, 1, 0)
    exact fetchLoopV1_found V client 0 2 r rest h

/-- Witness for C9 at a concrete client whose first search result exists
but carries no rating: absence after exactly one invocation. -/
theorem c9_unrated_first_result_witness :
    get_imdb_rating_C Nat (fun _ => Attempt.results [none, some 5]) = (none, 1, 0)
      ∧ get_imdb_rating_V1 Nat (fun _ => Attempt.results [none, some 5])
          = (.ok none, 1, 0) :=
  c9_unrated_first_result Nat (fun _ => Attempt.results [none, some 5])
    none [some 5] rfl

/--
One row of the progress CSV file: the dicts
`{'Index': index, 'Title': title, 'Rating': rating}` appended by
`process_titles` (cleanup_script.py line 62, imdb_rating_script.py
line 69).  `rating` is absent when the cell is empty/NaN.
-/
structure ProgressRecord (V : Type) where
  index : Nat
  title : String
  rating : Option V
deriving DecidableEq

/-- Rating fetched for row `i` by the cleanup variant:
`get_imdb_rating(titles[i])`. -/
def fetchedRating (V : Type) (client : String → Nat → Attempt V)
    (titles : List String) (i : Nat) : Option V :=
  (get_imdb_rating_C V (client (titles.getD i ""))).1

/-- Progress record written for row `i` by the cleanup variant. -/
def fetchedRecord (V : Type) (client : String → Nat → Attempt V)
    (titles : List String) (i : Nat) : ProgressRecord V :=
  ProgressRecord.mk i (titles.getD i "") (fetchedRating V client titles i)

/--
Per-row loop of `process_titles` in cleanup_script.py (lines 55-62):
for each index in the batch, fetch the rating and accumulate both the
ratings list and the progress records, in batch order.
-/
def processLoopC (V : Type) (client : String → Nat → Attempt V) (titles : List String) :
    List Nat → List (Option V) → List (ProgressRecord V) →
      List (Option V) × List (ProgressRecord V)
  | [], ratings, progress => (ratings, progress)
  | i :: rest, ratings, progress =>
    processLoopC V client titles rest (ratings ++ [fetchedRating V client titles i])
      (progress ++ [fetchedRecord V client titles i])

/--
`process_titles` of cleanup_script.py (lines 45-78): process the batch's
indices, then perform the single locked append to the progress store
(lines 70-76: read the current store, concatenate the new records,
rewrite the store) and return the batch's ratings.
-/
def process_titles_C (V : Type) (client : String → Nat → Attempt V) (titles : List String)
    (indices : List Nat) (store : List (ProgressRecord V)) :
    List (Option V) × List (ProgressRecord V) :=
  let res := processLoopC V client titles indices [] []
  (res.1, store ++ res.2)

/--
Per-row loop of `process_titles` in imdb_rating_script.py (lines 62-74).
The fetch there can raise `NameError` (see `fetchLoopV1`), which aborts
the batch: no records of the batch are appended and the exception
propagates through `future.result()`.
-/
def processLoopV1 (V : Type) (client : String → Nat → Attempt V) (titles : List String) :
    List Nat → List (Option V) → List (ProgressRecord V) →
      Except PyError (List (Option V) × List (ProgressRecord V))
  | [], ratings, progress => .ok (ratings, progress)
  | i :: rest, ratings, progress =>
    match (get_imdb_rating_V1 V (client (titles.getD i ""))).1 with
    | .error e => .error e
    | .ok r =>
      processLoopV1 V client titles rest (ratings ++ [r])
        (progress ++ [ProgressRecord.mk i (titles.getD i "") r])

/--
`process_titles` of imdb_rating_script.py (lines 51-86): iterates
`range(start_index, end_index)` over the FULL title list (this is the
resume bug: the bounds are positions in `titles_to_process` but index
the whole dataset), then performs the single locked append (lines 78-84).
-/
def process_titles_V1 (V : Type) (client : String → Nat → Attempt V) (titles : List String)
    (startI endI : Nat) (store : List (ProgressRecord V)) :
    Except PyError (List (Option V) × List (ProgressRecord V)) :=
  match processLoopV1 V client titles (List.range' startI (endI - startI)) [] [] with
  | .error e => .error e
  | .ok (ratings, progress) => .ok (ratings, store ++ progress)

/-- `if index < len(ratings): ratings[index] = rating` (cleanup_script.py
line 128, imdb_rating_script.py line 135). -/
def setIfInBounds (V : Type) (l : List (Option V)) (i : Nat) (v : Option V) :
    List (Option V) :=
  if i < l.length then l.set i v else l

/--
Collection step for one completed batch in cleanup_script.py
(lines 125-129): `for index, rating in zip(batch_indices, batch_ratings)`.
`batch_indices` is NOT the completed batch's index list: it is the last
value left in the submission loop's variable, i.e. the last submitted
batch's indices, for every completed future.
-/
def collectBatchC (V : Type) (lastBatch : List Nat) (ratings : List (Option V))
    (batchRatings : List (Option V)) : List (Option V) :=
  (lastBatch.zip batchRatings).foldl (fun acc p => setIfInBounds V acc p.1 p.2) ratings

/--
Collection step for one completed batch in imdb_rating_script.py
(lines 131-136): `index = start_index + i` where `start_index` is the
value leaked from the submission loop, i.e. the LAST batch's start
position, for every completed future.
-/
def collectBatchV1 (V : Type) (leakedStart : Nat) (ratings : List (Option V))
    (batchRatings : List (Option V)) : List (Option V) :=
  ((List.range batchRatings.length).zip batchRatings).foldl
    (fun acc p => setIfInBounds V acc (leakedStart + p.1) p.2) ratings

/-- State threaded through the worker pool: the dense ratings list being
assembled, the progress store contents, and (as an observation for the
resumability claims) the row indices passed to `get_imdb_rating` so far,
in processing order. -/
structure PoolState (V : Type) where
  ratings : List (Option V)
  store : List (ProgressRecord V)
  fetched : List Nat
deriving DecidableEq

/--
Thread-pool phase of cleanup_script.py (lines 117-129), with batch
completions serialized in the given completion order: each completed
batch runs `process_titles` (appending to the store) and is then
collected via the leaked `batch_indices` variable.
-/
def runPoolCLoop (V : Type) (client : String → Nat → Attempt V) (titles : List String)
    (lastBatch : List Nat) : List (List Nat) → PoolState V → PoolState V
  | [], st => st
  | bIdxs :: rest, st =>
    let pr := process_titles_C V client titles bIdxs st.store
    runPoolCLoop V client titles lastBatch rest
      (PoolState.mk (collectBatchC V lastBatch st.ratings pr.1) pr.2 (st.fetched ++ bIdxs))

/-- The pool of cleanup_script.py run to completion: `order` lists the
batch positions in completion order (`as_completed`). -/
def runPoolC (V : Type) (client : String → Nat → Attempt V) (titles : List String)
    (batchesL : List (List Nat)) (order : List Nat) (init : PoolState V) : PoolState V :=
  runPoolCLoop V client titles (batchesL.getLastD [])
    (order.map (fun b => batchesL.getD b [])) init

/--
Thread-pool phase of imdb_rating_script.py (lines 122-136): batches are
(start, end) position pairs; a batch whose fetch raises aborts the run
at `future.result()`.
-/
def runPoolV1Loop (V : Type) (client : String → Nat → Attempt V) (titles : List String)
    (leakedStart : Nat) : List (Nat × Nat) → PoolState V → Except PyError (PoolState V)
  | [], st => .ok st
  | (s, e) :: rest, st =>
    match process_titles_V1 V client titles s e st.store with
    | .error err => .error err
    | .ok (batchRatings, store2) =>
      runPoolV1Loop V client titles leakedStart rest
        (PoolState.mk (collectBatchV1 V leakedStart st.ratings batchRatings) store2
          (st.fetched ++ List.range' s (e - s)))

/--
Re-reading the progress file and overwriting `ratings[int(row['Index'])]`
for every stored record, in file order (cleanup_script.py lines 131-135).
There is no bounds check in the source, so a stored index past the end of
the ratings list raises `IndexError`.
-/
def refillFromStore (V : Type) :
    List (ProgressRecord V) → List (Option V) → Except PyError (List (Option V))
  | [], ratings => .ok ratings
  | r :: rest, ratings =>
    if r.index < ratings.length then
      refillFromStore V rest (ratings.set r.index r.rating)
    else .error .indexError

/--
Partition into batches of `batch_size = 5`: the slices
`unprocessed_indices[batch*5 : (batch+1)*5]` for
`batch in range((len + 4) // 5)` (cleanup_script.py lines 119-121).
-/
def chunk5 (α : Type) : List α → List (List α)
  | [] => []
  | a :: b :: c :: d :: e :: rest => [a, b, c, d, e] :: chunk5 α rest
  | l => [l]

/-- Maximum of a list of naturals, `None` when empty
(`progress_df['Index'].max()`, imdb_rating_script.py line 109). -/
def natListMax : List Nat → Option Nat
  | [] => none
  | a :: rest =>
    match natListMax rest with
    | none => some a
    | some b => some (max a b)

/-- Batch (start, end) position pairs of imdb_rating_script.py
(lines 124-127): `start = batch*5`, `end = min(start+5, len)` for
`batch in range((len + 5 - 1) // 5)`. -/
def v1Batches (toLen : Nat) : List (Nat × Nat) :=
  (List.range ((toLen + 5 - 1) / 5)).map (fun b => (b * 5, min (b * 5 + 5) toLen))

/-- Final artifacts of one `add_imdb_ratings` run: the dense ratings
vector assigned to `df['IMDB_Rating']` and written to the output file,
the final progress store contents, and the observed list of row indices
that were passed to `get_imdb_rating` during the run. -/
structure RunResult (V : Type) where
  finalRatings : List (Option V)
  finalStore : List (ProgressRecord V)
  fetched : List Nat
deriving DecidableEq

/--
`add_imdb_ratings` of cleanup_script.py (lines 80-144).  `titles` is the
input's `title` column (row order defines the row index); `store0` is
the progress file's records when the file exists; `order` is the batch
completion order of `as_completed` (a permutation of the batch positions
in any real run).  The unprocessed index set is the set difference
`range(len(df)) - processed_indices`, modelled in ascending order; after
the pool drains, the ratings vector is refilled from the re-read progress
file.
-/
def add_imdb_ratings_C (V : Type) (client : String → Nat → Attempt V)
    (titles : List String) (store0 : Option (List (ProgressRecord V)))
    (order : List Nat) : Except PyError (RunResult V) :=
  let N := titles.length
  let processed := (store0.getD []).map (fun r => r.index)
  let unproc := (List.range N).filter (fun i => !(processed.contains i))
  let batchesL := chunk5 Nat unproc
  let st := runPoolC V client titles batchesL order
    (PoolState.mk (List.replicate N none) (store0.getD []) [])
  if store0.isSome || !batchesL.isEmpty then
    match refillFromStore V st.store st.ratings with
    | .error e => .error e
    | .ok finalR => .ok (RunResult.mk finalR st.store st.fetched)
  else
    .ok (RunResult.mk st.ratings st.store st.fetched)

/--
`add_imdb_ratings` of imdb_rating_script.py (lines 88-145).  When the
progress file exists, resumption uses `last_index = max(Index)` and
schedules positions `[0, len - last_index - 1)` of the remaining-title
slice -- but `process_titles` indexes the full title list with those
positions, and no cached value is ever copied into the ratings vector
(there is no refill step in this variant).
-/
def add_imdb_ratings_V1 (V : Type) (client : String → Nat → Attempt V)
    (titles : List String) (store0 : Option (List (ProgressRecord V)))
    (order : List Nat) : Except PyError (RunResult V) :=
  let N := titles.length
  match store0 with
  | some s =>
    match natListMax (s.map (fun r => r.index)) with
    | none => .error .valueError
    | some m =>
      let batchesB := v1Batches (N - (m + 1))
      match runPoolV1Loop V client titles (batchesB.getLastD (0, 0)).1
          (order.map (fun b => batchesB.getD b (0, 0)))
          (PoolState.mk (List.replicate N none) s []) with
      | .error e => .error e
      | .ok st => .ok (RunResult.mk st.ratings st.store st.fetched)
  | none =>
    let batchesB := v1Batches N
    match runPoolV1Loop V client titles (batchesB.getLastD (0, 0)).1
        (order.map (fun b => batchesB.getD b (0, 0)))
        (PoolState.mk (List.replicate N none) [] []) with
    | .error e => .error e
    | .ok st => .ok (RunResult.mk st.ratings st.store st.fetched)

/-- The per-row loop of cleanup's `process_titles` appends, in batch
order, one rating and one record per index to its accumulators. -/
theorem processLoopC_spec (V : Type) (client : String → Nat → Attempt V)
    (titles : List String) :
    ∀ (indices : List Nat) (racc : List (Option V)) (pacc : List (ProgressRecord V)),
      processLoopC V client titles indices racc pacc
        = (racc ++ indices.map (fetchedRating V client titles),
           pacc ++ indices.map (fetchedRecord V client titles)) := by
  intro indices
  induction indices with
  | nil => intro racc pacc; simp [processLoopC]
  | cons i rest ih =>
    intro racc pacc
    simp [processLoopC, ih]

/-- Store contents after the pool of cleanup_script.py drains: the
initial store followed by one contiguous block of records per completed
batch, in completion order. -/
theorem runPoolCLoop_store (V : Type) (client : String → Nat → Attempt V)
    (titles : List String) (lastBatch : List Nat) :
    ∀ (bs : List (List Nat)) (st : PoolState V),
      (runPoolCLoop V client titles lastBatch bs st).store
        = st.store ++ (bs.map (fun b => b.map (fetchedRecord V client titles))).flatten := by
  intro bs
  induction bs with
  | nil => intro st; simp [runPoolCLoop]
  | cons b rest ih =>
    intro st
    simp [runPoolCLoop, ih, process_titles_C, processLoopC_spec]

/--
C6: the store-writing section of `process_titles` (cleanup_script.py
lines 70-76) performs one append for the whole batch, after all of the
batch's rows are processed: the new store is exactly the old store
followed by one record per batch row (in batch order), so no previously
stored record is dropped; and across a whole pool run the final store is
the initial store followed by exactly one contiguous block per completed
batch.
-/
theorem c6_one_append_per_batch (V : Type) (client : String → Nat → Attempt V)
    (titles : List String) (indices : List Nat) (store : List (ProgressRecord V))
    (batchesL : List (List Nat)) (order : List Nat) (init : PoolState V) :
    (process_titles_C V client titles indices store).2
        = store ++ indices.map (fetchedRecord V client titles)
      ∧ (process_titles_C V client titles indices store).2.length
          = store.length + indices.length
      ∧ (runPoolC V client titles batchesL order init).store
          = init.store
            ++ ((order.map (fun b => batchesL.getD b [])).map
                  (fun b => b.map (fetchedRecord V client titles))).flatten := by
  refine ⟨?_, ?_, ?_⟩
  · simp [process_titles_C, processLoopC_spec]
  · simp [process_titles_C, processLoopC_spec]
  · exact runPoolCLoop_store V client titles (batchesL.getLastD [])
      (order.map (fun b => batchesL.getD b [])) init

/-- Guarded assignment never changes the length of the ratings list. -/
theorem setIfInBounds_length (V : Type) (l : List (Option V)) (i : Nat) (v : Option V) :
    (setIfInBounds V l i v).length = l.length := by
  unfold setIfInBounds
  split <;> simp

/-- Folding guarded assignments (at any choice of target index per pair)
never changes the length. -/
theorem foldl_setIfInBounds_length (V : Type) (g : Nat × Option V → Nat) :
    ∀ (ps : List (Nat × Option V)) (acc : List (Option V)),
      (ps.foldl (fun a p => setIfInBounds V a (g p) p.2) acc).length = acc.length := by
  intro ps
  induction ps with
  | nil => intro acc; rfl
  | cons p rest ih => intro acc; simp [ih, setIfInBounds_length]

/-- The cleanup collection step preserves the ratings length. -/
theorem collectBatchC_length (V : Type) (lastBatch : List Nat)
    (ratings batchRatings : List (Option V)) :
    (collectBatchC V lastBatch ratings batchRatings).length = ratings.length :=
  foldl_setIfInBounds_length V (fun p => p.1) (lastBatch.zip batchRatings) ratings

/-- The imdb_rating_script collection step preserves the ratings length. -/
theorem collectBatchV1_length (V : Type) (leakedStart : Nat)
    (ratings batchRatings : List (Option V)) :
    (collectBatchV1 V leakedStart ratings batchRatings).length = ratings.length :=
  foldl_setIfInBounds_length V (fun p => leakedStart + p.1)
    ((List.range batchRatings.length).zip batchRatings) ratings

/-- Running the cleanup pool preserves the ratings length. -/
theorem runPoolCLoop_ratings_length (V : Type) (client : String → Nat → Attempt V)
    (titles : List String) (lastBatch : List Nat) :
    ∀ (bs : List (List Nat)) (st : PoolState V),
      (runPoolCLoop V client titles lastBatch bs st).ratings.length
        = st.ratings.length := by
  intro bs
  induction bs with
  | nil => intro st; rfl
  | cons b rest ih => intro st; simp [runPoolCLoop, ih, collectBatchC_length]

/-- Running the imdb_rating_script pool preserves the ratings length. -/
theorem runPoolV1Loop_ratings_length (V : Type) (client : String → Nat → Attempt V)
    (titles : List String) (leakedStart : Nat) :
    ∀ (bs : List (Nat × Nat)) (st fin : PoolState V),
      runPoolV1Loop V client titles leakedStart bs st = .ok fin →
        fin.ratings.length = st.ratings.length := by
  intro bs
  induction bs with
  | nil =>
    intro st fin h
    simp [runPoolV1Loop] at h
    simp [← h]
  | cons b rest ih =>
    intro st fin h
    rw [show b = (b.1, b.2) from rfl] at h
    simp only [runPoolV1Loop] at h
    rcases hp : process_titles_V1 V client titles b.1 b.2 st.store with e | pr
    · rw [hp] at h; exact absurd h (by simp)
    · rw [hp] at h
      have := ih _ _ h
      simpa [collectBatchV1_length] using this

/-- The refill step preserves the ratings length when it succeeds. -/
theorem refillFromStore_length (V : Type) :
    ∀ (recs : List (ProgressRecord V)) (ratings out : List (Option V)),
      refillFromStore V recs ratings = .ok out → out.length = ratings.length := by
  intro recs
  induction recs with
  | nil =>
    intro ratings out h
    simp [refillFromStore] at h
    simp [← h]
  | cons r rest ih =>
    intro ratings out h
    simp only [refillFromStore] at h
    by_cases hc : r.index < ratings.length
    · rw [if_pos hc] at h
      have := ih _ _ h
      simpa using this
    · rw [if_neg hc] at h
      exact absurd h (by simp)

/--
C5: completeness of the final ratings vector.  For an input of N rows,
whenever `add_imdb_ratings` (either variant) completes successfully, the
vector assigned to `df['IMDB_Rating']` and handed to the output writer
has exactly N entries; since the vector is a dense list of optional
values initialised to `[None] * len(df)`, every index in [0, N) holds
either a fetched value or the explicit absence marker `None` -- no index
is left unset.
-/
theorem c5_result_vector_complete (V : Type) (client : String → Nat → Attempt V)
    (titles : List String) (store0 : Option (List (ProgressRecord V)))
    (order : List Nat) (res resV1 : RunResult V) :
    (add_imdb_ratings_C V client titles store0 order = .ok res →
        res.finalRatings.length = titles.length)
      ∧ (add_imdb_ratings_V1 V client titles store0 order = .ok resV1 →
          resV1.finalRatings.length = titles.length) := by
  constructor
  · intro h
    simp only [add_imdb_ratings_C] at h
    set st := runPoolC V client titles
      (chunk5 Nat ((List.range titles.length).filter
        (fun i => !(((store0.getD []).map (fun r => r.index)).contains i))))
      order
      (PoolState.mk (List.replicate titles.length none) (store0.getD []) []) with hst
    have hlen : st.ratings.length = titles.length := by
      rw [hst]
      unfold runPoolC
      rw [runPoolCLoop_ratings_length]
      simp
    by_cases hcond : (store0.isSome || !(chunk5 Nat ((List.range titles.length).filter
        (fun i => !(((store0.getD []).map (fun r => r.index)).contains i)))).isEmpty) = true
    · rw [if_pos hcond] at h
      rcases hr : refillFromStore V st.store st.ratings with e | out
      · rw [hr] at h; exact absurd h (by simp)
      · rw [hr] at h
        have hout : out.length = st.ratings.length := refillFromStore_length V _ _ _ hr
        have : res = RunResult.mk out st.store st.fetched := by
          simpa using h.symm
        rw [this]
        simpa [hout] using hlen
    · rw [if_neg hcond] at h
      have : res = RunResult.mk st.ratings st.store st.fetched := by
        simpa using h.symm
      rw [this]
      exact hlen
  · intro h
    rcases store0 with _ | s
    · simp only [add_imdb_ratings_V1] at h
      rcases hp : runPoolV1Loop V client titles
          ((v1Batches titles.length).getLastD (0, 0)).1
          (order.map (fun b => (v1Batches titles.length).getD b (0, 0)))
          (PoolState.mk (List.replicate titles.length none) [] []) with e | st
      · rw [hp] at h; exact absurd h (by simp)
      · rw [hp] at h
        have hlen := runPoolV1Loop_ratings_length V client titles _ _ _ _ hp
        have : resV1 = RunResult.mk st.ratings st.store st.fetched := by
          simpa using h.symm
        rw [this]
        simpa using hlen
    · simp only [add_imdb_ratings_V1] at h
      rcases hm : natListMax (s.map (fun r => r.index)) with _ | m
      · rw [hm] at h; exact absurd h (by simp)
      · rw [hm] at h
        dsimp only at h
        rcases hp : runPoolV1Loop V client titles
            ((v1Batches (titles.length - (m + 1))).getLastD (0, 0)).1
            (order.map (fun b => (v1Batches (titles.length - (m + 1))).getD b (0, 0)))
            (PoolState.mk (List.replicate titles.length none) s []) with e | st
        · rw [hp] at h; exact absurd h (by simp)
        · rw [hp] at h
          have hlen := runPoolV1Loop_ratings_length V client titles _ _ _ _ hp
          have : resV1 = RunResult.mk st.ratings st.store st.fetched := by
            simpa using h.symm
          rw [this]
          simpa using hlen

/-- A concrete deterministic lookup client for the evaluation theorems:
title `ti` is found with rating `10 + i` on every invocation; anything
else yields an empty search result. -/
def clientC : String → Nat → Attempt Nat := fun t _ =>
  if t == "t0" then .results [some 10]
  else if t == "t1" then .results [some 11]
  else if t == "t2" then .results [some 12]
  else if t == "t3" then .results [some 13]
  else if t == "t4" then .results [some 14]
  else if t == "t5" then .results [some 15]
  else .results []

/-- A three-row input dataset. -/
def titles3 : List String := ["t0", "t1", "t2"]

/-- A six-row input dataset (two batches of batch size 5). -/
def titles6 : List String := ["t0", "t1", "t2", "t3", "t4", "t5"]

/-- A pre-existing progress file recording rows 0 and 1 of `titles3`
with cached ratings 70 and 71. -/
def store0C : List (ProgressRecord Nat) :=
  [ProgressRecord.mk 0 "t0" (some 70), ProgressRecord.mk 1 "t1" (some 71)]

/--
C3: resumability fails in `add_imdb_ratings` of imdb_rating_script.py.
With the three-row input and a progress file recording rows 0 and 1
(cached ratings 70 and 71), the resumed run fetches recorded row 0
again (`fetched = [0]`), never fetches the one genuinely unprocessed
row 2, and leaves the cached values out of the final vector (entries 1
and 2 are `None`); an uninterrupted run over the same input produces
`[some 10, some 11, some 12]`, so the resumed final vector differs from
the uninterrupted one.  The cause is lines 109-110: the resume logic
slices `titles_to_process` by `last_index` but `process_titles` indexes
the full title list with batch-local positions, and this variant has no
step that copies cached progress values into the final vector.
-/
theorem c3_resume_run :
    add_imdb_ratings_V1 Nat clientC titles3 (some store0C) [0]
        = .ok (RunResult.mk [some 10, none, none]
            (store0C ++ [ProgressRecord.mk 0 "t0" (some 10)]) [0])
      ∧ add_imdb_ratings_V1 Nat clientC titles3 none [0]
          = .ok (RunResult.mk [some 10, some 11, some 12]
              [ProgressRecord.mk 0 "t0" (some 10), ProgressRecord.mk 1 "t1" (some 11),
               ProgressRecord.mk 2 "t2" (some 12)] [0, 1, 2])
      ∧ ([some 10, none, none] : List (Option Nat)) ≠ [some 10, some 11, some 12] := by
  refine ⟨rfl, rfl, by decide⟩

/--
C4: the collection step keys partial results by the leaked loop variable
(`start_index` in imdb_rating_script.py line 134, `batch_indices` in
cleanup_script.py line 127), i.e. by the LAST submitted batch's
position, not by the completed batch's row indices.  On a fresh six-row
run of imdb_rating_script.py (two batches), row 0's rating is fetched as
`some 10` but the final vector's entry 0 is `None` under every
completion order; and when batch 1 completes before batch 0, the rating
fetched for row 0 is stored at row index 5.
-/
theorem c4_completion_order_run :
    add_imdb_ratings_V1 Nat clientC titles6 none [0, 1]
        = .ok (RunResult.mk [none, none, none, none, none, some 15]
            [ProgressRecord.mk 0 "t0" (some 10), ProgressRecord.mk 1 "t1" (some 11),
             ProgressRecord.mk 2 "t2" (some 12), ProgressRecord.mk 3 "t3" (some 13),
             ProgressRecord.mk 4 "t4" (some 14), ProgressRecord.mk 5 "t5" (some 15)]
            [0, 1, 2, 3, 4, 5])
      ∧ add_imdb_ratings_V1 Nat clientC titles6 none [1, 0]
          = .ok (RunResult.mk [none, none, none, none, none, some 10]
              [ProgressRecord.mk 5 "t5" (some 15), ProgressRecord.mk 0 "t0" (some 10),
               ProgressRecord.mk 1 "t1" (some 11), ProgressRecord.mk 2 "t2" (some 12),
               ProgressRecord.mk 3 "t3" (some 13), ProgressRecord.mk 4 "t4" (some 14)]
              [5, 0, 1, 2, 3, 4])
      ∧ (get_imdb_rating_V1 Nat (clientC "t0")).1 = .ok (some 10) := by
  refine ⟨rfl, rfl, rfl⟩

/-- Witness for C5 at a concrete one-row run of each variant: the final
ratings vector has exactly one entry. -/
theorem c5_result_vector_complete_witness :
    (RunResult.mk [some 10] [ProgressRecord.mk 0 "t0" (some 10)] [0]).finalRatings.length
        = (["t0"] : List String).length
      ∧ (RunResult.mk [some 10] [ProgressRecord.mk 0 "t0" (some 10)] [0]).finalRatings.length
          = (["t0"] : List String).length :=
  ⟨(c5_result_vector_complete Nat clientC ["t0"] none [0]
      (RunResult.mk [some 10] [ProgressRecord.mk 0 "t0" (some 10)] [0])
      (RunResult.mk [some 10] [ProgressRecord.mk 0 "t0" (some 10)] [0])).1 rfl,
   (c5_result_vector_complete Nat clientC ["t0"] none [0]
      (RunResult.mk [some 10] [ProgressRecord.mk 0 "t0" (some 10)] [0])
      (RunResult.mk [some 10] [ProgressRecord.mk 0 "t0" (some 10)] [0])).2 rfl⟩

/-- Outcome of one command-line invocation of imdb_rating_script.py
(lines 147-159, together with the column check of lines 98-101). -/
inductive MainOutcome where
  /-- wrong argument count: usage message printed, `sys.exit(1)`. -/
  | usageExit
  /-- input path is not a file: error printed, `sys.exit(1)`. -/
  | missingFileExit
  /-- `add_imdb_ratings` was entered but the `title` column is missing:
  error printed, the function returns, the process exits normally. -/
  | missingColumnReturn
  /-- the pipeline ran and wrote the output file. -/
  | completedRun
deriving DecidableEq

/--
The `__main__` block of imdb_rating_script.py (lines 147-159; the
cleanup variant's block, lines 146-158, is identical): check
`len(sys.argv) != 2`, then `os.path.isfile(input_file)`, then call
`add_imdb_ratings`, whose first action is the `title` column check.
`fileExists` abstracts the file system, `hasTitleColumn` the parsed
input's header.
-/
def script_main (argv : List String) (fileExists : String → Bool)
    (hasTitleColumn : Bool) : MainOutcome :=
  if argv.length != 2 then .usageExit
  else if !(fileExists (argv.getD 1 "")) then .missingFileExit
  else if !hasTitleColumn then .missingColumnReturn
  else .completedRun

/-- Process exit status of each outcome (`sys.exit(1)` versus falling off
the end of the script, which exits 0). -/
def exitCode : MainOutcome → Nat
  | .usageExit => 1
  | .missingFileExit => 1
  | .missingColumnReturn => 0
  | .completedRun => 0

/-- Whether `add_imdb_ratings` was invoked at all (any work started). -/
def startedPipeline : MainOutcome → Bool
  | .usageExit => false
  | .missingFileExit => false
  | .missingColumnReturn => true
  | .completedRun => true

/-- Whether an output file was written (`df.to_csv(output_file)` reached). -/
def wroteOutput : MainOutcome → Bool
  | .completedRun => true
  | _ => false

/--
C7: command-line validation.  A wrong argument count or a non-existent
input file makes the program exit with status 1 before any work; a
missing `title` column makes `add_imdb_ratings` report and return, so no
output file is produced, and the process exit status is 0 (not non-zero,
as the claim allows).
-/
theorem c7_cli_validation (argv : List String) (fileExists : String → Bool)
    (hasTitleColumn : Bool) :
    (argv.length ≠ 2 →
        script_main argv fileExists hasTitleColumn = .usageExit
          ∧ exitCode .usageExit = 1 ∧ startedPipeline .usageExit = false)
      ∧ (argv.length = 2 → fileExists (argv.getD 1 "") = false →
          script_main argv fileExists hasTitleColumn = .missingFileExit
            ∧ exitCode .missingFileExit = 1 ∧ startedPipeline .missingFileExit = false)
      ∧ (argv.length = 2 → fileExists (argv.getD 1 "") = true → hasTitleColumn = false →
          script_main argv fileExists hasTitleColumn = .missingColumnReturn
            ∧ wroteOutput .missingColumnReturn = false
            ∧ exitCode .missingColumnReturn = 0) := by
  refine ⟨?_, ?_, ?_⟩
  · intro h
    refine ⟨?_, rfl, rfl⟩
    simp [script_main, h]
  · intro h hf
    refine ⟨?_, rfl, rfl⟩
    have h1 : 1 < argv.length := by omega
    rw [List.getD_eq_getElem argv "" h1] at hf
    simp [script_main, h, hf]
  · intro h hf hc
    refine ⟨?_, rfl, rfl⟩
    have h1 : 1 < argv.length := by omega
    rw [List.getD_eq_getElem argv "" h1] at hf
    simp [script_main, h, hf, hc]

/-- Witness for C7 at concrete invocations: one with a missing argument,
one with a non-existent file, one with the `title` column absent. -/
theorem c7_cli_validation_witness :
    (script_main ["script.py"] (fun _ => true) true = .usageExit
        ∧ exitCode .usageExit = 1 ∧ startedPipeline .usageExit = false)
      ∧ (script_main ["script.py", "data.csv"] (fun _ => false) true = .missingFileExit
          ∧ exitCode .missingFileExit = 1 ∧ startedPipeline .missingFileExit = false)
      ∧ (script_main ["script.py", "data.csv"] (fun _ => true) false = .missingColumnReturn
          ∧ wroteOutput .missingColumnReturn = false
          ∧ exitCode .missingColumnReturn = 0) :=
  ⟨(c7_cli_validation ["script.py"] (fun _ => true) true).1 (by decide),
   (c7_cli_validation ["script.py", "data.csv"] (fun _ => false) true).2.1 rfl rfl,
   (c7_cli_validation ["script.py", "data.csv"] (fun _ => true) false).2.2 rfl rfl rfl⟩

/-- Whether `pat` is an initial segment of `l` (character-wise). -/
def beginsWith : List Char → List Char → Bool
  | [], _ => true
  | _ :: _, [] => false
  | p :: ps, c :: cs => p == c && beginsWith ps cs

/-- Python's substring test `pat in s` (for the patterns used here). -/
def occursIn (pat : List Char) : List Char → Bool
  | [] => pat.isEmpty
  | c :: rest => beginsWith pat (c :: rest) || occursIn pat rest

/--
Python's `s.replace(pat, rep)` on character lists, for a non-empty
`pat` (the scripts only ever call it with `'.csv'`): scan left to right,
replace each non-overlapping occurrence, continue after the replaced
occurrence.  (For an empty `pat` this model is the identity; Python's
empty-pattern behaviour differs but is unreachable in the source.)
-/
def pyReplace (pat rep : List Char) : List Char → List Char
  | [] => []
  | c :: rest =>
    if beginsWith pat (c :: rest) && !pat.isEmpty then
      rep ++ pyReplace pat rep (rest.drop (pat.length - 1))
    else
      c :: pyReplace pat rep rest
termination_by l => l.length
decreasing_by
  · simp only [List.length_cons]
    have := List.length_drop (pat.length - 1) rest
    omega
  · simp only [List.length_cons]
    omega

/-- An initial-segment match is no longer than the matched list. -/
theorem beginsWith_length :
    ∀ (pat l : List Char), beginsWith pat l = true → pat.length ≤ l.length := by
  intro pat
  induction pat with
  | nil => intro l _; simp
  | cons p ps ih =>
    intro l h
    cases l with
    | nil => simp [beginsWith] at h
    | cons c cs =>
      rw [beginsWith, Bool.and_eq_true] at h
      have := ih cs h.2
      simp only [List.length_cons]
      omega

/-- A non-empty list is not `isEmpty`. -/
theorem not_isEmpty_of_ne_nil (pat : List Char) (h : pat ≠ []) :
    pat.isEmpty = false := by
  cases pat with
  | nil => exact absurd rfl h
  | cons a as => rfl

/-- If the pattern does not occur, `pyReplace` is the identity
(`str.replace` is a no-op). -/
theorem pyReplace_of_not_occurs (pat rep : List Char) :
    ∀ l, occursIn pat l = false → pyReplace pat rep l = l := by
  intro l
  induction l with
  | nil => intro _; simp [pyReplace]
  | cons c rest ih =>
    intro h
    rw [occursIn, Bool.or_eq_false_iff] at h
    have hcond : (beginsWith pat (c :: rest) && !pat.isEmpty) = false := by
      simp [h.1]
    rw [pyReplace, hcond]
    simp [ih h.2]

/-- With a replacement at least as long as the pattern, `pyReplace` never
shortens the list. -/
theorem pyReplace_length_ge (pat rep : List Char) (hlen : pat.length ≤ rep.length) :
    ∀ (n : Nat) (l : List Char), l.length ≤ n →
      l.length ≤ (pyReplace pat rep l).length := by
  intro n
  induction n with
  | zero =>
    intro l hl
    have hnil : l = [] := List.length_eq_zero.mp (Nat.le_zero.mp hl)
    subst hnil
    simp [pyReplace]
  | succ n ih =>
    intro l hl
    cases l with
    | nil => simp [pyReplace]
    | cons c rest =>
      by_cases hb : (beginsWith pat (c :: rest) && !pat.isEmpty) = true
      · have hb' := hb
        rw [Bool.and_eq_true] at hb'
        have hple : pat.length ≤ rest.length + 1 := by
          have := beginsWith_length pat (c :: rest) hb'.1
          simpa using this
        have hpat1 : 1 ≤ pat.length := by
          cases pat with
          | nil => simp at hb'
          | cons a as => simp
        have hrec := ih (rest.drop (pat.length - 1)) (by
          simp only [List.length_drop]
          simp only [List.length_cons] at hl
          omega)
        rw [pyReplace, if_pos hb]
        simp only [List.length_append, List.length_cons]
        simp only [List.length_drop] at hrec
        omega
      · have hrec := ih rest (by simp only [List.length_cons] at hl; omega)
        rw [pyReplace, if_neg hb]
        simp only [List.length_cons]
        omega

/-- With a strictly longer replacement, `pyReplace` strictly lengthens
any list in which the pattern occurs. -/
theorem pyReplace_length_gt (pat rep : List Char) (hne : pat ≠ [])
    (hlen : pat.length < rep.length) :
    ∀ (n : Nat) (l : List Char), l.length ≤ n → occursIn pat l = true →
      l.length < (pyReplace pat rep l).length := by
  intro n
  induction n with
  | zero =>
    intro l hl hocc
    have hnil : l = [] := List.length_eq_zero.mp (Nat.le_zero.mp hl)
    subst hnil
    rw [occursIn] at hocc
    rw [not_isEmpty_of_ne_nil pat hne] at hocc
    exact absurd hocc (by simp)
  | succ n ih =>
    intro l hl hocc
    cases l with
    | nil =>
      rw [occursIn] at hocc
      rw [not_isEmpty_of_ne_nil pat hne] at hocc
      exact absurd hocc (by simp)
    | cons c rest =>
      by_cases hb : (beginsWith pat (c :: rest) && !pat.isEmpty) = true
      · have hb' := hb
        rw [Bool.and_eq_true] at hb'
        have hple : pat.length ≤ rest.length + 1 := by
          have := beginsWith_length pat (c :: rest) hb'.1
          simpa using this
        have hpat1 : 1 ≤ pat.length := by
          cases pat with
          | nil => exact absurd rfl hne
          | cons a as => simp
        have hrec := pyReplace_length_ge pat rep (Nat.le_of_lt hlen)
          (rest.drop (pat.length - 1)).length (rest.drop (pat.length - 1)) le_rfl
        rw [pyReplace, if_pos hb]
        simp only [List.length_append, List.length_cons]
        simp only [List.length_drop] at hrec
        omega
      · have hbw : beginsWith pat (c :: rest) = false := by
          rcases hbeq : beginsWith pat (c :: rest) with _ | _
          · rfl
          · exact absurd (by rw [hbeq, not_isEmpty_of_ne_nil pat hne]; rfl) hb
        rw [occursIn, hbw, Bool.false_or] at hocc
        have hrec := ih rest (by simp only [List.length_cons] at hl; omega) hocc
        rw [pyReplace, if_neg hb]
        simp only [List.length_cons]
        omega

/-- Replacing an occurring pattern by two different equal-length
replacements yields different results. -/
theorem pyReplace_ne_of_rep_ne (pat r1 r2 : List Char) (hne : pat ≠ [])
    (hl : r1.length = r2.length) (hr : r1 ≠ r2) :
    ∀ (n : Nat) (l : List Char), l.length ≤ n → occursIn pat l = true →
      pyReplace pat r1 l ≠ pyReplace pat r2 l := by
  intro n
  induction n with
  | zero =>
    intro l hl0 hocc
    have hnil : l = [] := List.length_eq_zero.mp (Nat.le_zero.mp hl0)
    subst hnil
    rw [occursIn] at hocc
    rw [not_isEmpty_of_ne_nil pat hne] at hocc
    exact absurd hocc (by simp)
  | succ n ih =>
    intro l hln hocc
    cases l with
    | nil =>
      rw [occursIn] at hocc
      rw [not_isEmpty_of_ne_nil pat hne] at hocc
      exact absurd hocc (by simp)
    | cons c rest =>
      by_cases hb : (beginsWith pat (c :: rest) && !pat.isEmpty) = true
      · rw [pyReplace, if_pos hb, pyReplace, if_pos hb]
        intro heq
        have h1 : (r1 ++ pyReplace pat r1 (rest.drop (pat.length - 1))).take r1.length
            = r1 := List.take_left r1 _
        have h2 : (r2 ++ pyReplace pat r2 (rest.drop (pat.length - 1))).take r1.length
            = r2 := by
          rw [hl]
          exact List.take_left r2 _
        rw [heq, h2] at h1
        exact hr h1.symm
      · have hbw : beginsWith pat (c :: rest) = false := by
          rcases hbeq : beginsWith pat (c :: rest) with _ | _
          · rfl
          · exact absurd (by rw [hbeq, not_isEmpty_of_ne_nil pat hne]; rfl) hb
        rw [occursIn, hbw, Bool.false_or] at hocc
        rw [pyReplace, if_neg hb, pyReplace, if_neg hb]
        intro heq
        exact ih rest (by simp only [List.length_cons] at hln; omega) hocc
          (List.cons_injective heq ▸ rfl)

/-- The pattern `'.csv'` used by every path derivation in the scripts. -/
def csvPat : List Char := ['.', 'c', 's', 'v']

/-- The replacement `'_progress.csv'` (both scripts). -/
def progressSuffix : List Char :=
  ['_', 'p', 'r', 'o', 'g', 'r', 'e', 's', 's', '.', 'c', 's', 'v']

/-- The replacement `'_Modified.csv'` (imdb_rating_script.py line 142). -/
def modifiedSuffixV1 : List Char :=
  ['_', 'M', 'o', 'd', 'i', 'f', 'i', 'e', 'd', '.', 'c', 's', 'v']

/-- The replacement `'_modified.csv'` (cleanup_script.py line 141 and
merge_script.py line 39). -/
def modifiedSuffixC : List Char :=
  ['_', 'm', 'o', 'd', 'i', 'f', 'i', 'e', 'd', '.', 'c', 's', 'v']

/-- `progress_file = input_file.replace('.csv', '_progress.csv')`
(imdb_rating_script.py line 104, cleanup_script.py line 96). -/
def progress_file_path (input : List Char) : List Char :=
  pyReplace csvPat progressSuffix input

/-- `output_file = input_file.replace('.csv', '_Modified.csv')`
(imdb_rating_script.py line 142). -/
def output_file_path_V1 (input : List Char) : List Char :=
  pyReplace csvPat modifiedSuffixV1 input

/-- `output_file = input_file.replace('.csv', '_modified.csv')`
(cleanup_script.py line 141). -/
def output_file_path_C (input : List Char) : List Char :=
  pyReplace csvPat modifiedSuffixC input

/--
C10: path derivation.  For an input path that does not contain `'.csv'`,
`str.replace` is a no-op, so the derived progress path and output path
(either variant) all equal the input path itself: the run uses the input
file as its own progress file and overwrites the input with the output.
For a path that does contain `'.csv'`, the progress path and both output
paths are distinct from the input and from each other.
-/
theorem c10_csv_path_replacement (input : List Char) :
    (occursIn csvPat input = false →
        progress_file_path input = input
          ∧ output_file_path_V1 input = input
          ∧ output_file_path_C input = input)
      ∧ (occursIn csvPat input = true →
          progress_file_path input ≠ input
            ∧ output_file_path_V1 input ≠ input
            ∧ output_file_path_C input ≠ input
            ∧ progress_file_path input ≠ output_file_path_V1 input
            ∧ progress_file_path input ≠ output_file_path_C input) := by
  constructor
  · intro h
    exact ⟨pyReplace_of_not_occurs csvPat progressSuffix input h,
           pyReplace_of_not_occurs csvPat modifiedSuffixV1 input h,
           pyReplace_of_not_occurs csvPat modifiedSuffixC input h⟩
  · intro h
    have hgt1 := pyReplace_length_gt csvPat progressSuffix (by decide) (by decide)
      input.length input le_rfl h
    have hgt2 := pyReplace_length_gt csvPat modifiedSuffixV1 (by decide) (by decide)
      input.length input le_rfl h
    have hgt3 := pyReplace_length_gt csvPat modifiedSuffixC (by decide) (by decide)
      input.length input le_rfl h
    refine ⟨?_, ?_, ?_, ?_, ?_⟩
    · intro heq
      have := congrArg List.length heq
      unfold progress_file_path at this
      omega
    · intro heq
      have := congrArg List.length heq
      unfold output_file_path_V1 at this
      omega
    · intro heq
      have := congrArg List.length heq
      unfold output_file_path_C at this
      omega
    · exact pyReplace_ne_of_rep_ne csvPat progressSuffix modifiedSuffixV1
        (by decide) (by decide) (by decide) input.length input le_rfl h
    · exact pyReplace_ne_of_rep_ne csvPat progressSuffix modifiedSuffixC
        (by decide) (by decide) (by decide) input.length input le_rfl h

/-- Witness for C10 at the concrete paths `'data.txt'` (no `'.csv'`:
every derived path collapses to the input) and `'a.csv'` (distinct
derived paths). -/
theorem c10_csv_path_replacement_witness :
    (progress_file_path ['d', 'a', 't', 'a', '.', 't', 'x', 't']
          = ['d', 'a', 't', 'a', '.', 't', 'x', 't']
        ∧ output_file_path_V1 ['d', 'a', 't', 'a', '.', 't', 'x', 't']
            = ['d', 'a', 't', 'a', '.', 't', 'x', 't']
        ∧ output_file_path_C ['d', 'a', 't', 'a', '.', 't', 'x', 't']
            = ['d', 'a', 't', 'a', '.', 't', 'x', 't'])
      ∧ (progress_file_path ['a', '.', 'c', 's', 'v'] ≠ ['a', '.', 'c', 's', 'v']
          ∧ output_file_path_V1 ['a', '.', 'c', 's', 'v'] ≠ ['a', '.', 'c', 's', 'v']
          ∧ output_file_path_C ['a', '.', 'c', 's', 'v'] ≠ ['a', '.', 'c', 's', 'v']
          ∧ progress_file_path ['a', '.', 'c', 's', 'v']
              ≠ output_file_path_V1 ['a', '.', 'c', 's', 'v']
          ∧ progress_file_path ['a', '.', 'c', 's', 'v']
              ≠ output_file_path_C ['a', '.', 'c', 's', 'v']) :=
  ⟨(c10_csv_path_replacement ['d', 'a', 't', 'a', '.', 't', 'x', 't']).1 (by decide),
   (c10_csv_path_replacement ['a', '.', 'c', 's', 'v']).2 (by decide)⟩

/-- A row of the second dataset (`x_df`): its `title` key column plus the
remaining columns, abstracted as a payload. -/
structure XRow (α : Type) where
  title : String
  rest : α
deriving DecidableEq

/-- A row of the progress file as read by merge_script.py: the `Title`
and `Rating` columns (an empty/NaN rating cell is `none`). -/
structure PRow (V : Type) where
  title : String
  rating : Option V
deriving DecidableEq

/-- A progress row after `rename(columns={'Rating': 'IMDB_Rating'})`
(merge_script.py line 30). -/
structure PRowRenamed (V : Type) where
  title : String
  imdbRating : Option V
deriving DecidableEq

/-- A row of `pd.merge(x_df, progress_df, left_on='title',
right_on='Title', how='left')` (line 33): both key columns are present;
an unmatched left row carries NaN in the right-hand columns. -/
structure MergedFullRow (α V : Type) where
  title : String
  rest : α
  joinedTitle : Option String
  imdbRating : Option V
deriving DecidableEq

/-- A merged row after `drop(columns=['Title'])` (line 36). -/
structure MergedRow (α V : Type) where
  title : String
  rest : α
  imdbRating : Option V
deriving DecidableEq

/-- The rename step of merge_script.py line 30. -/
def renameRatingColumn (V : Type) (ps : List (PRow V)) : List (PRowRenamed V) :=
  ps.map (fun p => PRowRenamed.mk p.title p.rating)

/-- pandas left merge (merge_script.py line 33): every left row is paired
with each matching right row in right-table order, or with NaN right
columns when no right row matches. -/
def pandasLeftMerge (α V : Type) (xs : List (XRow α)) (ps : List (PRowRenamed V)) :
    List (MergedFullRow α V) :=
  match xs with
  | [] => []
  | x :: rest =>
    (let ms := ps.filter (fun p => p.title == x.title)
     if ms.isEmpty then [MergedFullRow.mk x.title x.rest none none]
     else ms.map (fun p => MergedFullRow.mk x.title x.rest (some p.title) p.imdbRating))
      ++ pandasLeftMerge α V rest ps

/-- The drop step of merge_script.py line 36. -/
def dropTitleColumn (α V : Type) (rows : List (MergedFullRow α V)) :
    List (MergedRow α V) :=
  rows.map (fun r => MergedRow.mk r.title r.rest r.imdbRating)

/--
`merge_datasets` of merge_script.py (lines 5-41).  The three flags are
the column-presence checks of lines 21-27 (`'title' in x_df.columns`,
`'Title'`/`'Rating' in progress_df.columns`); when a check fails the
function prints and returns `None` without writing a file.  On success
it returns the merged rows and the output path
`x_file.replace('.csv', '_modified.csv')` (line 39).
-/
def merge_datasets (α V : Type) (xHasTitle pHasTitle pHasRating : Bool)
    (xs : List (XRow α)) (ps : List (PRow V)) (xFile : List Char) :
    Option (List (MergedRow α V) × List Char) :=
  if !xHasTitle then none
  else if !pHasTitle || !pHasRating then none
  else some (dropTitleColumn α V (pandasLeftMerge α V xs (renameRatingColumn V ps)),
             pyReplace csvPat modifiedSuffixC xFile)

/--
Left join as the specification words it: each row of the second dataset,
joined by its `title` against the progress file's `Title` column, keeps
its own columns and gains one `IMDB_Rating` column holding the matching
progress row's rating (absent when there is no match or the match is
unrated); left rows with several matches are repeated per match.
-/
def leftJoinSpec (α V : Type) (xs : List (XRow α)) (ps : List (PRow V)) :
    List (MergedRow α V) :=
  match xs with
  | [] => []
  | x :: rest =>
    (let ms := ps.filter (fun p => p.title == x.title)
     if ms.isEmpty then [MergedRow.mk x.title x.rest none]
     else ms.map (fun p => MergedRow.mk x.title x.rest p.rating))
      ++ leftJoinSpec α V rest ps

/-- The code's rename-merge-drop pipeline computes exactly the
spec-described left join. -/
theorem dropTitle_merge_eq (α V : Type) (ps : List (PRow V)) :
    ∀ xs : List (XRow α),
      dropTitleColumn α V (pandasLeftMerge α V xs (renameRatingColumn V ps))
        = leftJoinSpec α V xs ps := by
  intro xs
  induction xs with
  | nil => rfl
  | cons x rest ih =>
    have hfil : (renameRatingColumn V ps).filter (fun p => p.title == x.title)
        = (ps.filter (fun p => p.title == x.title)).map
            (fun p => PRowRenamed.mk p.title p.rating) := by
      unfold renameRatingColumn
      rw [List.filter_map]
      rfl
    simp only [pandasLeftMerge, leftJoinSpec, dropTitleColumn, List.map_append] at ih ⊢
    rw [hfil]
    cases hq : ps.filter (fun p => p.title == x.title) with
    | nil => simp [ih]
    | cons q qs => simp [ih, Function.comp]

/--
C8: with every required column present, `merge_datasets` performs the
spec-described left join of the second dataset's `title` column against
the progress file's `Title` column (with `Rating` renamed to
`IMDB_Rating` and the redundant `Title` column dropped), and writes to
the path derived from the input filename by
`x_file.replace('.csv', '_modified.csv')`.
-/
theorem c8_merge_left_join (α V : Type) (xs : List (XRow α)) (ps : List (PRow V))
    (xFile : List Char) :
    merge_datasets α V true true true xs ps xFile
      = some (leftJoinSpec α V xs ps, pyReplace csvPat modifiedSuffixC xFile) := by
  simp only [merge_datasets, Bool.not_true, Bool.or_self, Bool.false_eq_true,
    if_false, dropTitle_merge_eq]
